import Mathlib

/-!
Shallow embedding of the real-time collaboration core of the `collab`
repository: the in-memory document store (`MemStorage` in the storage
module), the WebSocket synchronization server (`setupWebSocketServer`
in the websocket module), and the client editor's undo/redo history
(`Editor` in `client/src/components/document/editor.tsx`).

Machine integers of the source (ids) are modelled as `Nat`; strings as
`String`.  The `ws` handle of a connection is modelled by a connection
identifier `Nat`; a socket's `readyState === OPEN` test is modelled by
membership in the server state's `openConns` list.  Fallible storage
calls return `Option`.
-/

namespace Collab

/-- A user record (`users` table); only the fields read by the
collaboration core are modelled. -/
structure User where
  id : Nat
  username : String
  name : String
deriving Repr, DecidableEq

/-- A document record; only the fields read by the collaboration core
are modelled (`updatedAt` is kept because `updateDocument` writes it). -/
structure Document where
  id : Nat
  ownerId : Nat
  content : String
  updatedAt : Nat
deriving Repr, DecidableEq

/-- A collaborator grant row: `{documentId, userId, role}` with
`role ∈ {"editor", "commenter", "viewer"}` (a plain string in the
source schema). -/
structure Collaborator where
  id : Nat
  documentId : Nat
  userId : Nat
  role : String
deriving Repr, DecidableEq

/-- The in-memory store `MemStorage`: three id-keyed maps, modelled as
lists of records looked up by id. -/
structure MemStorage where
  users : List User
  documents : List Document
  collaborators : List Collaborator
deriving Repr, DecidableEq

/-- `MemStorage.getUser(id)`. -/
def getUser (s : MemStorage) (id : Nat) : Option User :=
  s.users.find? (fun u => u.id == id)

/-- `MemStorage.getDocument(id)`. -/
def getDocument (s : MemStorage) (id : Nat) : Option Document :=
  s.documents.find? (fun d => d.id == id)

/-- `MemStorage.getCollaborators(documentId)`: all grant rows for the
document (the user join performed by the source is not needed by any
field the protocol reads besides `userId` and `role`). -/
def getCollaborators (s : MemStorage) (documentId : Nat) : List Collaborator :=
  s.collaborators.filter (fun cb => cb.documentId == documentId)

/-- `MemStorage.updateDocument(id, {content})` as invoked by the edit
handler: when the document is absent it returns `none` and leaves the
store untouched; otherwise it overwrites `content`, stamps `updatedAt`
with the current time `now`, stores the result and returns it. -/
def updateDocumentContent (s : MemStorage) (id : Nat) (content : String)
    (now : Nat) : Option Document × MemStorage :=
  match getDocument s id with
  | none => (none, s)
  | some d =>
    let d' : Document := { d with content := content, updatedAt := now }
    (some d', { s with
      documents := s.documents.map (fun doc => if doc.id == id then d' else doc) })

/-- A registered client tuple (`Client` interface in the websocket
module): `{userId, documentId, ws}` with the socket handle as `conn`. -/
structure Client where
  userId : Nat
  documentId : Nat
  conn : Nat
deriving Repr, DecidableEq

/-- Server-side mutable state of `setupWebSocketServer`: the shared
`clients` array, each connection's `clientInfo` closure variable
(an association list keyed by connection), and the set of connections
whose socket is currently `OPEN`. -/
structure ServerState where
  clients : List Client
  info : List (Nat × Client)
  openConns : List Nat
deriving Repr, DecidableEq

/-- Read a connection's `clientInfo` variable (`null` ↦ `none`). -/
def lookupInfo (st : ServerState) (c : Nat) : Option Client :=
  (st.info.find? (fun p => p.1 == c)).map (fun p => p.2)

/-- Assign a connection's `clientInfo` variable. -/
def setInfo (info : List (Nat × Client)) (c : Nat) (ci : Client) :
    List (Nat × Client) :=
  info.filter (fun p => p.1 != c) ++ [(c, ci)]

/-- Messages the server sends to clients (the server→client rows of the
message envelope table).  An active-users entry is
`(userId, username, name)`; the opaque `cursorPosition` passthrough of
an edit is an `Option String`. -/
inductive ServerMsg where
  | errorMsg (message : String)
  | userJoined (userId : Nat) (username name : String)
  | documentData (documentId : Nat) (content : String)
  | activeUsers (users : List (Nat × String × String))
  | documentUpdate (documentId : Nat) (content : String) (updatedBy : Nat)
      (cursorPos : Option String)
  | cursorUpdate (userId : Nat) (username name : String) (position : String)
  | userLeft (userId : Nat)
deriving Repr, DecidableEq

/-- An incoming frame as seen by the `message` handler: `malformed`
models a `JSON.parse` failure, `unknownType` a parsed object whose
`type` matches none of the handled discriminators. -/
inductive WireMsg where
  | malformed
  | auth (userId documentId : Nat)
  | documentEdit (documentId : Nat) (content : String) (cursorPos : Option String)
  | cursorPosition (position : String)
  | unknownType
deriving Repr, DecidableEq

/-- `broadcastToDocument(documentId, data, excludeWs?)`: send to every
registered client on the document whose socket is `OPEN`, skipping the
excluded connection; delivery order follows the `clients` array. -/
def broadcastToDocument (st : ServerState) (documentId : Nat) (msg : ServerMsg)
    (excludeConn : Option Nat) : List (Nat × ServerMsg) :=
  (st.clients.filter (fun cl =>
      cl.documentId == documentId
        && excludeConn != some cl.conn
        && st.openConns.contains cl.conn)).map
    (fun cl => (cl.conn, msg))

/-- The resolved active-user list computed during `auth`: registered
clients on the document, each resolved through `getUser`, dropping the
unresolvable ones (`filter(Boolean)`). -/
def activeUserList (storage : MemStorage) (clients : List Client)
    (documentId : Nat) : List (Nat × String × String) :=
  (clients.filter (fun cl => cl.documentId == documentId)).filterMap
    (fun cl => (getUser storage cl.userId).map (fun u => (u.id, u.username, u.name)))

/-- The `message` handler of `setupWebSocketServer`, one incoming frame
on connection `c`.  `persistOk` models whether the awaited
`storage.updateDocument` call of the edit branch succeeds or throws
(the deployed `DatabaseStorage` can reject); a throw is caught by the
surrounding `try/catch`, which replies `error "Invalid message format"`.
Returns the new store, the new server state and the sent messages in
order, each tagged with its destination connection. -/
def handleMessage (now : Nat) (storage : MemStorage) (st : ServerState)
    (c : Nat) (persistOk : Bool) (msg : WireMsg) :
    MemStorage × ServerState × List (Nat × ServerMsg) :=
  match msg with
  | .malformed =>
    (storage, st, [(c, .errorMsg "Invalid message format")])
  | .auth userId documentId =>
    match getUser storage userId with
    | none => (storage, st, [(c, .errorMsg "User not found")])
    | some user =>
      match getDocument storage documentId with
      | none => (storage, st, [(c, .errorMsg "Document not found")])
      | some document =>
        let isOwner := document.ownerId == userId
        if !isOwner
            && !((getCollaborators storage documentId).any
                  (fun cb => cb.userId == userId)) then
          (storage, st, [(c, .errorMsg "No access to document")])
        else
          let clientInfo : Client := ⟨userId, documentId, c⟩
          let st' : ServerState := { st with
            clients := st.clients ++ [clientInfo],
            info := setInfo st.info c clientInfo }
          let joined := broadcastToDocument st' documentId
            (.userJoined userId user.username user.name) (some c)
          (storage, st',
            joined
              ++ [(c, .documentData documentId document.content),
                  (c, .activeUsers (activeUserList storage st'.clients documentId))])
  | .documentEdit documentId content cursorPos =>
    match lookupInfo st c with
    | none => (storage, st, [(c, .errorMsg "Not authenticated")])
    | some clientInfo =>
      if documentId != clientInfo.documentId then
        (storage, st, [(c, .errorMsg "Invalid document ID")])
      else if !persistOk then
        (storage, st, [(c, .errorMsg "Invalid message format")])
      else
        let upd := updateDocumentContent storage documentId content now
        (upd.2, st,
          broadcastToDocument st documentId
            (.documentUpdate documentId content clientInfo.userId cursorPos)
            (some c))
  | .cursorPosition position =>
    match lookupInfo st c with
    | none => (storage, st, [(c, .errorMsg "Not authenticated")])
    | some clientInfo =>
      match getUser storage clientInfo.userId with
      | none => (storage, st, [(c, .errorMsg "User not found")])
      | some user =>
        (storage, st,
          broadcastToDocument st clientInfo.documentId
            (.cursorUpdate user.id user.username user.name position) (some c))
  | .unknownType =>
    (storage, st, [])

/-- The `close` handler: the closing socket is no longer `OPEN`; when
the connection had authenticated, the FIRST `clients` tuple matching the
connection's `(userId, documentId)` — found by `findIndex`, not by the
socket handle — is spliced out, and `user_left` is broadcast (with no
excluded connection) when a tuple was removed. -/
def handleClose (st : ServerState) (c : Nat) :
    ServerState × List (Nat × ServerMsg) :=
  let st0 : ServerState := { st with openConns := st.openConns.filter (fun x => x != c) }
  match lookupInfo st0 c with
  | none => (st0, [])
  | some ci =>
    match st0.clients.findIdx? (fun cl =>
        cl.userId == ci.userId && cl.documentId == ci.documentId) with
    | none => (st0, [])
    | some i =>
      let st1 : ServerState := { st0 with clients := st0.clients.eraseIdx i }
      (st1, broadcastToDocument st1 ci.documentId (.userLeft ci.userId) none)

/-- The user ids currently registered for a document (the observable
roster behind `listActive`). -/
def activeUserIds (st : ServerState) (documentId : Nat) : List Nat :=
  (st.clients.filter (fun cl => cl.documentId == documentId)).map
    (fun cl => cl.userId)

/-- The role gate of the REST update path
(`PATCH /api/documents/:id`, routes module): the request may edit iff
the user owns the document, or has a collaborator grant whose role is
not `"viewer"`. -/
def restCanEdit (storage : MemStorage) (userId documentId : Nat) : Bool :=
  match getDocument storage documentId with
  | none => false
  | some document =>
    if document.ownerId == userId then true
    else
      match (getCollaborators storage documentId).find?
          (fun cb => cb.userId == userId) with
      | none => false
      | some cb => cb.role != "viewer"

/-- Client-side editor history state (`Editor` component): the
`content` React state, the `undoStack`/`redoStack` arrays and the
`isUndoRedoAction` suppression ref. -/
structure EditorState where
  content : String
  undoStack : List String
  redoStack : List String
  isUndoRedoAction : Bool
deriving Repr, DecidableEq

/-- Editor state after mount for a document with content
`initialContent`: the history-initialisation effect seeds the undo
stack with the initial content when it is truthy (non-empty). -/
def initEditor (initialContent : String) : EditorState :=
  { content := initialContent,
    undoStack := if initialContent ≠ "" then [initialContent] else [],
    redoStack := [],
    isUndoRedoAction := false }

/-- `handleInput()`: reads the DOM's new content; unless the mutation
came from an undo/redo application (suppression flag set) or the
current content is falsy (empty), pushes the pre-edit content onto the
undo stack and clears the redo stack; a set suppression flag is
consumed (reset).  Always adopts the new content (and transmits it as
a `document_edit`, not modelled here). -/
def handleInput (s : EditorState) (newContent : String) : EditorState :=
  if !s.isUndoRedoAction && s.content != "" then
    { content := newContent,
      undoStack := s.undoStack ++ [s.content],
      redoStack := [],
      isUndoRedoAction := s.isUndoRedoAction }
  else
    { content := newContent,
      undoStack := s.undoStack,
      redoStack := s.redoStack,
      isUndoRedoAction := false }

/-- `handleFormat('undo')` including the unconditional trailing
`handleInput()` call: when the undo stack is non-empty, push the
current content (if truthy) onto the redo stack, set the suppression
flag, and — when the popped entry is truthy — install it as the new
content and shrink the undo stack; the trailing `handleInput()` then
reads back the DOM content with the flag set (or, when nothing was
undone and the flag is clear, records the unchanged content as a fresh
local edit). -/
def undo (s : EditorState) : EditorState :=
  if s.undoStack ≠ [] then
    let previousState := (s.undoStack.getLast?).getD ""
    let newUndoStack := s.undoStack.dropLast
    let s1 := if s.content != "" then
        { s with redoStack := s.redoStack ++ [s.content] }
      else s
    if previousState != "" then
      handleInput { s1 with
        content := previousState,
        undoStack := newUndoStack,
        isUndoRedoAction := true } previousState
    else
      handleInput { s1 with isUndoRedoAction := true } s.content
  else
    handleInput s s.content

/-- `handleFormat('redo')` including the unconditional trailing
`handleInput()` call; symmetric to `undo`. -/
def redo (s : EditorState) : EditorState :=
  if s.redoStack ≠ [] then
    let nextState := (s.redoStack.getLast?).getD ""
    let newRedoStack := s.redoStack.dropLast
    let s1 := if s.content != "" then
        { s with undoStack := s.undoStack ++ [s.content] }
      else s
    if nextState != "" then
      handleInput { s1 with
        content := nextState,
        redoStack := newRedoStack,
        isUndoRedoAction := true } nextState
    else
      handleInput { s1 with isUndoRedoAction := true } s.content
  else
    handleInput s s.content

/-- A sequence of local edits: each input event invokes `handleInput`
with the DOM's content after that edit. -/
def applyEdits (s : EditorState) (edits : List String) : EditorState :=
  edits.foldl handleInput s

/-- Recogniser for `document_update` frames, used to state broadcast
properties. -/
def ServerMsg.isDocumentUpdate : ServerMsg → Bool
  | .documentUpdate _ _ _ _ => true
  | _ => false

/-! ### Concrete fixtures used by witnesses and counterexamples -/

/-- A store with an owner (user 1), a `"viewer"`-role collaborator
(user 2) and an unrelated user 3, holding one document `9`. -/
def exStorage : MemStorage :=
  { users := [⟨1, "owner", "Owner"⟩, ⟨2, "viewer", "Viewer"⟩, ⟨3, "bob", "Bob"⟩],
    documents := [⟨9, 1, "old", 0⟩],
    collaborators := [⟨1, 9, 2, "viewer"⟩] }

/-- A fresh server state with two open connections `7` and `8`. -/
def exState0 : ServerState := ⟨[], [], [7, 8]⟩

/-- A server state where connection `7` (user 2) and connection `8`
(user 3) are both authenticated on document `9`. -/
def exState : ServerState :=
  ⟨[⟨2, 9, 7⟩, ⟨3, 9, 8⟩], [(7, ⟨2, 9, 7⟩), (8, ⟨3, 9, 8⟩)], [7, 8]⟩

/-- Server evolution after the `"viewer"`-role collaborator (user 2)
authenticates on document 9 over connection 7. -/
def c1Auth : MemStorage × ServerState × List (Nat × ServerMsg) :=
  handleMessage 5 exStorage exState0 7 true (.auth 2 9)

/-- A server state where user 5 holds TWO connections (1 and 2) on
document 9 — two browser tabs — alongside user 3 on connection 3. -/
def exStateTwoTabs : ServerState :=
  ⟨[⟨5, 9, 1⟩, ⟨5, 9, 2⟩, ⟨3, 9, 3⟩],
    [(1, ⟨5, 9, 1⟩), (2, ⟨5, 9, 2⟩), (3, ⟨3, 9, 3⟩)], [1, 2, 3]⟩

/-! ### Helper lemmas -/

/-- The excluded (originating) connection never appears among the
destinations of a broadcast. -/
theorem not_mem_broadcast_excluded (st : ServerState) (documentId : Nat)
    (msg : ServerMsg) (c : Nat) (m : ServerMsg) :
    (c, m) ∉ broadcastToDocument st documentId msg (some c) := by
  intro hmem
  simp only [broadcastToDocument, List.mem_map, List.mem_filter] at hmem
  obtain ⟨cl, ⟨-, hcond⟩, heq⟩ := hmem
  have hconn : cl.conn = c := congrArg Prod.fst heq
  simp [hconn] at hcond

/-- A registered, open, non-originating client on the document is a
destination of the broadcast. -/
theorem mem_broadcast_of (st : ServerState) (documentId : Nat)
    (msg : ServerMsg) (c : Nat) (cl : Client)
    (hmem : cl ∈ st.clients) (hdoc : cl.documentId = documentId)
    (hne : cl.conn ≠ c) (hopen : cl.conn ∈ st.openConns) :
    (cl.conn, msg) ∈ broadcastToDocument st documentId msg (some c) := by
  simp only [broadcastToDocument, List.mem_map, List.mem_filter]
  refine ⟨cl, ⟨hmem, ?_⟩, rfl⟩
  simp [hdoc, hopen, Ne.symm hne]

/-- Replacing the matching record in an id-keyed list makes `find?`
return the replacement. -/
theorem find?_map_replace (l : List Document) (id : Nat) (d d' : Document)
    (hd' : d'.id = id)
    (h : l.find? (fun x => x.id == id) = some d) :
    (l.map (fun doc => if doc.id == id then d' else doc)).find?
        (fun x => x.id == id) = some d' := by
  induction l with
  | nil => simp at h
  | cons x xs ih =>
    by_cases hx : x.id = id
    · simp [List.find?_cons, hx, hd']
    · have hxb : (x.id == id) = false := beq_eq_false_iff_ne.mpr hx
      simp only [List.find?_cons, hxb, cond_false] at h
      simp only [List.map_cons, hxb, Bool.false_eq_true, if_false,
        List.find?_cons, cond_false]
      exact ih h

/-- Looking a document up after `updateDocumentContent` returns the
updated record. -/
theorem getDocument_updateDocumentContent (s : MemStorage) (id : Nat)
    (content : String) (now : Nat) (d : Document)
    (h : getDocument s id = some d) :
    getDocument (updateDocumentContent s id content now).2 id
      = some { d with content := content, updatedAt := now } := by
  have hid : d.id = id := by
    have := List.find?_some h
    simpa using this
  unfold updateDocumentContent
  rw [h]
  exact find?_map_replace s.documents id d _ hid h

/-! ### Claim C3 -/

/-- Claim C3 (amended): a frame that fails to parse yields exactly one
`error`-typed reply, to the sender only, and leaves the server state —
including the set of open connections, so the connection is not closed
— and the store unchanged; a parsed frame whose `type` discriminator is
unknown is silently ignored: no reply at all is sent (and nothing is
closed or mutated). -/
theorem c3_malformed_error_unknown_silent (now : Nat) (storage : MemStorage)
    (st : ServerState) (c : Nat) (persistOk : Bool) :
    handleMessage now storage st c persistOk .malformed
        = (storage, st, [(c, .errorMsg "Invalid message format")])
      ∧ handleMessage now storage st c persistOk .unknownType
        = (storage, st, []) :=
  ⟨rfl, rfl⟩

/-- Claim C3 counterexample: a parsed message with an unknown `type`
(received on open connection 7) produces no reply whatsoever — in
particular no `error`-typed reply — contradicting the claim that every
unknown-type message yields an error reply to the sender. -/
theorem c3_unknown_type_no_reply :
    (handleMessage 0 exStorage exState 7 true .unknownType).2.2 = [] := rfl

/-! ### Claim C7 -/

/-- Claim C7: on a connection authenticated for document
`ci.documentId`, a `document_edit` naming any other document id is
answered with a single `error` reply (the spec's `ProtocolError`,
message `"Invalid document ID"`) to the sender only — so no broadcast
reaches any participant — and the store is returned unchanged — so no
write occurs. -/
theorem c7_cross_document_edit_rejected (now : Nat) (storage : MemStorage)
    (st : ServerState) (c : Nat) (persistOk : Bool) (ci : Client)
    (documentId : Nat) (content : String) (cursorPos : Option String)
    (hinfo : lookupInfo st c = some ci)
    (hne : documentId ≠ ci.documentId) :
    handleMessage now storage st c persistOk
        (.documentEdit documentId content cursorPos)
      = (storage, st, [(c, .errorMsg "Invalid document ID")]) := by
  simp [handleMessage, hinfo, hne]

/-- Claim C7 witness: connection 7 is bound to document 9 in
`exState`; an edit naming document 5 is rejected without any write or
broadcast. -/
theorem c7_witness :
    lookupInfo exState 7 = some ⟨2, 9, 7⟩ ∧ (5 : Nat) ≠ 9
      ∧ handleMessage 0 exStorage exState 7 true (.documentEdit 5 "x" none)
          = (exStorage, exState, [(7, .errorMsg "Invalid document ID")]) :=
  ⟨by decide, by decide,
    c7_cross_document_edit_rejected 0 exStorage exState 7 true ⟨2, 9, 7⟩ 5 "x"
      none (by decide) (by decide)⟩

/-! ### Claim C9 -/

/-- Claim C9: an `auth` frame for a user who neither owns the
referenced document nor holds any collaborator grant on it is answered
with a single `error` reply to that connection, and both the server
state (in particular the `clients` roster) and the store are returned
unchanged. -/
theorem c9_auth_denied_no_registration (now : Nat) (storage : MemStorage)
    (st : ServerState) (c : Nat) (persistOk : Bool) (userId documentId : Nat)
    (hOwner : ∀ d, getDocument storage documentId = some d → d.ownerId ≠ userId)
    (hCollab : ∀ cb ∈ getCollaborators storage documentId, cb.userId ≠ userId) :
    ∃ emsg, handleMessage now storage st c persistOk (.auth userId documentId)
      = (storage, st, [(c, .errorMsg emsg)]) := by
  cases hu : getUser storage userId with
  | none => exact ⟨"User not found", by simp [handleMessage, hu]⟩
  | some user =>
    cases hd : getDocument storage documentId with
    | none => exact ⟨"Document not found", by simp [handleMessage, hu, hd]⟩
    | some d =>
      refine ⟨"No access to document", ?_⟩
      have howner : (d.ownerId == userId) = false :=
        beq_eq_false_iff_ne.mpr (hOwner d hd)
      have hany : (getCollaborators storage documentId).any
          (fun cb => cb.userId == userId) = false := by
        simp only [List.any_eq_false]
        intro cb hcb
        simpa using hCollab cb hcb
      simp [handleMessage, hu, hd, howner, hany]

/-- Claim C9 witness: user 3 is neither owner nor collaborator of
document 9 in `exStorage`, so its `auth` is refused and the roster
stays empty. -/
theorem c9_witness :
    (∀ d, getDocument exStorage 9 = some d → d.ownerId ≠ 3)
      ∧ (∀ cb ∈ getCollaborators exStorage 9, cb.userId ≠ 3)
      ∧ ∃ emsg, handleMessage 0 exStorage exState0 11 true (.auth 3 9)
          = (exStorage, exState0, [(11, .errorMsg emsg)]) :=
  ⟨by decide, by decide,
    c9_auth_denied_no_registration 0 exStorage exState0 11 true 3 9
      (by decide) (by decide)⟩

/-! ### Claim C1 -/

/-- Claim C1 counterexample: user 2 holds only a `"viewer"` grant on
document 9, yet after authenticating it sends a `document_edit` and the
stored content changes from `"old"` to `"hacked"` — the synchronization
protocol accepted the edit, so the claimed `editor`-only gate does not
exist. -/
theorem c1_counterexample :
    exStorage.collaborators = [⟨1, 9, 2, "viewer"⟩]
      ∧ (getDocument exStorage 9).map Document.content = some "old"
      ∧ (getDocument
            (handleMessage 6 c1Auth.1 c1Auth.2.1 7 true
              (.documentEdit 9 "hacked" none)).1 9).map Document.content
          = some "hacked" := by
  refine ⟨rfl, rfl, ?_⟩
  decide

/-- Claim C1 (amended): the synchronization protocol applies no role
gate to edits.  Any participant authenticated on the bound document —
in particular a collaborator holding a grant of ANY role, `"viewer"`
and `"commenter"` included — has a matching `document_edit` accepted:
the snapshot is persisted to the store, the update is broadcast to the
other participants, and the sender receives no reply (hence no
error). -/
theorem c1_ws_edit_ignores_role (now : Nat) (storage : MemStorage)
    (st : ServerState) (c : Nat) (ci : Client) (cb : Collaborator)
    (d : Document) (content : String) (cursorPos : Option String)
    (hinfo : lookupInfo st c = some ci)
    (hcb : cb ∈ storage.collaborators)
    (hcbu : cb.userId = ci.userId)
    (hcbd : cb.documentId = ci.documentId)
    (hd : getDocument storage ci.documentId = some d) :
    getDocument
        (handleMessage now storage st c true
          (.documentEdit ci.documentId content cursorPos)).1 ci.documentId
        = some { d with content := content, updatedAt := now }
      ∧ (handleMessage now storage st c true
            (.documentEdit ci.documentId content cursorPos)).2.2
          = broadcastToDocument st ci.documentId
              (.documentUpdate ci.documentId content ci.userId cursorPos)
              (some c)
      ∧ ∀ m, (c, m) ∉ (handleMessage now storage st c true
            (.documentEdit ci.documentId content cursorPos)).2.2 := by
  have hred : handleMessage now storage st c true
      (.documentEdit ci.documentId content cursorPos)
      = ((updateDocumentContent storage ci.documentId content now).2, st,
          broadcastToDocument st ci.documentId
            (.documentUpdate ci.documentId content ci.userId cursorPos)
            (some c)) := by
    simp [handleMessage, hinfo]
  rw [hred]
  exact ⟨getDocument_updateDocumentContent storage ci.documentId content now d hd,
    rfl, fun m => not_mem_broadcast_excluded st ci.documentId _ c m⟩

/-- Claim C1 witness: the viewer-role collaborator (user 2, connection
7 in `exState`) edits document 9; the edit is persisted and broadcast. -/
theorem c1_witness :
    lookupInfo exState 7 = some ⟨2, 9, 7⟩
      ∧ (⟨1, 9, 2, "viewer"⟩ : Collaborator) ∈ exStorage.collaborators
      ∧ getDocument exStorage 9 = some ⟨9, 1, "old", 0⟩
      ∧ getDocument
            (handleMessage 6 exStorage exState 7 true
              (.documentEdit 9 "v2" none)).1 9
          = some ⟨9, 1, "v2", 6⟩ :=
  ⟨by decide, by decide, by decide,
    (c1_ws_edit_ignores_role 6 exStorage exState 7 ⟨2, 9, 7⟩ ⟨1, 9, 2, "viewer"⟩
      ⟨9, 1, "old", 0⟩ "v2" none (by decide) (by decide) rfl rfl (by decide)).1⟩

/-! ### Claim C8 -/

/-- Claim C8: when participant A (connection `c`, bound to document
`ci.documentId`) sends `document_edit` with content `X`, every other
registered open participant `cl` on that document receives a
`document_update` carrying exactly `X` and `updatedBy = A`'s user id,
while the sending connection receives nothing at all. -/
theorem c8_edit_broadcast_to_others (now : Nat) (storage : MemStorage)
    (st : ServerState) (c : Nat) (ci cl : Client) (X : String)
    (cursorPos : Option String)
    (hinfo : lookupInfo st c = some ci)
    (hcl : cl ∈ st.clients)
    (hdoc : cl.documentId = ci.documentId)
    (hne : cl.conn ≠ c)
    (hopen : cl.conn ∈ st.openConns) :
    (cl.conn, ServerMsg.documentUpdate ci.documentId X ci.userId cursorPos)
        ∈ (handleMessage now storage st c true
            (.documentEdit ci.documentId X cursorPos)).2.2
      ∧ ∀ m, (c, m) ∉ (handleMessage now storage st c true
            (.documentEdit ci.documentId X cursorPos)).2.2 := by
  have hred : (handleMessage now storage st c true
      (.documentEdit ci.documentId X cursorPos)).2.2
      = broadcastToDocument st ci.documentId
          (.documentUpdate ci.documentId X ci.userId cursorPos) (some c) := by
    simp [handleMessage, hinfo]
  rw [hred]
  exact ⟨mem_broadcast_of st ci.documentId _ c cl hcl hdoc hne hopen,
    fun m => not_mem_broadcast_excluded st ci.documentId _ c m⟩

/-- Claim C8 witness: in `exState`, user 2 (connection 7) edits
document 9 with content `"X"`; connection 8 (user 3) receives the
update tagged `updatedBy = 2`, and connection 7 receives nothing. -/
theorem c8_witness :
    (8, ServerMsg.documentUpdate 9 "X" 2 none)
        ∈ (handleMessage 0 exStorage exState 7 true
            (.documentEdit 9 "X" none)).2.2
      ∧ ∀ m, (7, m) ∉ (handleMessage 0 exStorage exState 7 true
            (.documentEdit 9 "X" none)).2.2 :=
  c8_edit_broadcast_to_others 0 exStorage exState 7 ⟨2, 9, 7⟩ ⟨3, 9, 8⟩ "X" none
    (by decide) (by decide) rfl (by decide) (by decide)

/-! ### Claim C10 -/

/-- Claim C10: when the bound document has been deleted from the store
after authentication, a `document_edit` still goes through silently:
the store's update returns nothing instead of failing, so the store is
left unchanged, the sender gets no error (no reply at all), and the
other open participants still receive the `document_update` with the
new content. -/
theorem c10_edit_after_delete_broadcasts (now : Nat) (storage : MemStorage)
    (st : ServerState) (c : Nat) (ci cl : Client) (content : String)
    (cursorPos : Option String)
    (hinfo : lookupInfo st c = some ci)
    (hdel : getDocument storage ci.documentId = none)
    (hcl : cl ∈ st.clients)
    (hdoc : cl.documentId = ci.documentId)
    (hne : cl.conn ≠ c)
    (hopen : cl.conn ∈ st.openConns) :
    (handleMessage now storage st c true
          (.documentEdit ci.documentId content cursorPos)).1 = storage
      ∧ (∀ m, (c, m) ∉ (handleMessage now storage st c true
            (.documentEdit ci.documentId content cursorPos)).2.2)
      ∧ (cl.conn, ServerMsg.documentUpdate ci.documentId content ci.userId
            cursorPos)
          ∈ (handleMessage now storage st c true
              (.documentEdit ci.documentId content cursorPos)).2.2 := by
  have hred : handleMessage now storage st c true
      (.documentEdit ci.documentId content cursorPos)
      = (storage, st,
          broadcastToDocument st ci.documentId
            (.documentUpdate ci.documentId content ci.userId cursorPos)
            (some c)) := by
    simp [handleMessage, hinfo, updateDocumentContent, hdel]
  rw [hred]
  exact ⟨rfl, fun m => not_mem_broadcast_excluded st ci.documentId _ c m,
    mem_broadcast_of st ci.documentId _ c cl hcl hdoc hne hopen⟩

/-- Claim C10 witness: document 9 is deleted from the store (empty
document list), yet connection 7's edit is broadcast to connection 8
with the new content and connection 7 gets no error back. -/
theorem c10_witness :
    (handleMessage 0 ⟨exStorage.users, [], exStorage.collaborators⟩ exState 7
          true (.documentEdit 9 "ghost" none)).1
        = ⟨exStorage.users, [], exStorage.collaborators⟩
      ∧ (∀ m, (7, m) ∉ (handleMessage 0
            ⟨exStorage.users, [], exStorage.collaborators⟩ exState 7 true
            (.documentEdit 9 "ghost" none)).2.2)
      ∧ (8, ServerMsg.documentUpdate 9 "ghost" 2 none)
          ∈ (handleMessage 0 ⟨exStorage.users, [], exStorage.collaborators⟩
              exState 7 true (.documentEdit 9 "ghost" none)).2.2 :=
  c10_edit_after_delete_broadcasts 0 ⟨exStorage.users, [], exStorage.collaborators⟩
    exState 7 ⟨2, 9, 7⟩ ⟨3, 9, 8⟩ "ghost" none (by decide) rfl (by decide) rfl
    (by decide) (by decide)

/-! ### Claim C6 -/

/-- Claim C6: for every `document_edit`, persistence is attempted
before any broadcast — whenever a `document_update` appears among the
sent frames, the persistence call succeeded and the returned store is
exactly the post-persistence store — and when the persistence call
fails (the awaited `updateDocument` throws), no `document_update` is
broadcast to anyone (only a single error reply to the sender is
produced). -/
theorem c6_persist_before_broadcast (now : Nat) (storage : MemStorage)
    (st : ServerState) (c : Nat) (persistOk : Bool) (documentId : Nat)
    (content : String) (cursorPos : Option String) :
    (persistOk = false →
        ∀ bm ∈ (handleMessage now storage st c persistOk
            (.documentEdit documentId content cursorPos)).2.2,
          bm.2.isDocumentUpdate = false)
      ∧ ∀ bm ∈ (handleMessage now storage st c persistOk
            (.documentEdit documentId content cursorPos)).2.2,
          bm.2.isDocumentUpdate = true →
            persistOk = true
              ∧ (handleMessage now storage st c persistOk
                  (.documentEdit documentId content cursorPos)).1
                = (updateDocumentContent storage documentId content now).2 := by
  cases hinfo : lookupInfo st c with
  | none =>
    constructor
    · intro _ bm hbm
      simp [handleMessage, hinfo] at hbm
      simp [hbm, ServerMsg.isDocumentUpdate]
    · intro bm hbm hupd
      simp [handleMessage, hinfo] at hbm
      rw [hbm] at hupd
      simp [ServerMsg.isDocumentUpdate] at hupd
  | some ci =>
    by_cases hdid : documentId = ci.documentId
    · subst hdid
      cases hp : persistOk with
      | false =>
        constructor
        · intro _ bm hbm
          simp [handleMessage, hinfo, hp] at hbm
          simp [hbm, ServerMsg.isDocumentUpdate]
        · intro bm hbm hupd
          simp [handleMessage, hinfo, hp] at hbm
          rw [hbm] at hupd
          simp [ServerMsg.isDocumentUpdate] at hupd
      | true =>
        constructor
        · intro hfalse
          exact absurd hfalse (by simp)
        · intro bm hbm _
          refine ⟨rfl, ?_⟩
          simp [handleMessage, hinfo]
    · have hne : (documentId != ci.documentId) = true := bne_iff_ne.mpr hdid
      constructor
      · intro _ bm hbm
        simp [handleMessage, hinfo, hne] at hbm
        simp [hbm, ServerMsg.isDocumentUpdate]
      · intro bm hbm hupd
        simp [handleMessage, hinfo, hne] at hbm
        rw [hbm] at hupd
        simp [ServerMsg.isDocumentUpdate] at hupd

/-- Claim C6 witness: instantiating both directions — a failing
persistence call on connection 7 yields only the (non-update) error
reply, and a successful edit's broadcast frame to connection 8 comes
with the store already holding the persisted snapshot. -/
theorem c6_witness :
    ServerMsg.isDocumentUpdate
        (ServerMsg.errorMsg "Invalid message format") = false
      ∧ (true = true
          ∧ (handleMessage 0 exStorage exState 7 true
              (.documentEdit 9 "new" none)).1
            = (updateDocumentContent exStorage 9 "new" 0).2) :=
  ⟨(c6_persist_before_broadcast 0 exStorage exState 7 false 9 "new" none).1 rfl
      (7, ServerMsg.errorMsg "Invalid message format") (by decide),
    (c6_persist_before_broadcast 0 exStorage exState 7 true 9 "new" none).2
      (8, ServerMsg.documentUpdate 9 "new" 2 none) (by decide) rfl⟩

/-! ### Claim C2 -/

/-- Under a cleared suppression flag, a run of local edits whose
starting contents are all truthy appends exactly the pre-edit contents
to the undo stack. -/
theorem applyEdits_undoStack : ∀ (es : List String) (s : EditorState),
    s.isUndoRedoAction = false → s.content ≠ "" →
    (∀ e ∈ es.dropLast, e ≠ "") →
    (applyEdits s es).undoStack = s.undoStack ++ (s.content :: es).dropLast := by
  intro es
  induction es with
  | nil => intro s _ _ _; simp [applyEdits]
  | cons e es' ih =>
    intro s h1 h2 h3
    have hbne : (s.content != "") = true := bne_iff_ne.mpr h2
    have hinput : handleInput s e
        = ⟨e, s.undoStack ++ [s.content], [], false⟩ := by
      simp [handleInput, h1, hbne]
    have hstep : applyEdits s (e :: es') = applyEdits (handleInput s e) es' := rfl
    cases es' with
    | nil =>
      rw [hstep, hinput]
      simp [applyEdits]
    | cons f fs =>
      have he : e ≠ "" := h3 e (by simp [List.dropLast_cons₂])
      have h3' : ∀ x ∈ (f :: fs).dropLast, x ≠ "" := by
        intro x hx
        exact h3 x (by simp [List.dropLast_cons₂]; exact Or.inr hx)
      rw [hstep, hinput, ih _ rfl he h3']
      simp [List.dropLast_cons₂, List.append_assoc]

/-- Claim C2 counterexample: one local edit (`"a"` → `"b"`) on a
freshly mounted editor leaves an undo stack of length 2, not 1: the
history-initialisation effect has already seeded the stack with the
initial content before the first edit pushes it again. -/
theorem c2_counterexample :
    (applyEdits (initEditor "a") ["b"]).undoStack.length ≠ 1 := by decide

/-- Claim C2 (amended): for a sequence of `n` local edits `es` on a
single client with no undo/redo invoked, starting from a non-empty
initial content `c0` with every pre-edit content non-empty, the undo
stack has length `n + 1`, not `n`: its head is the seeded initial
content, and the remaining entries are exactly the contents
immediately preceding each edit — the stack equals
`c0 :: (c0 :: es).dropLast`, whose `(i+1)`-st entry is the content
immediately before the `(i+1)`-st edit. -/
theorem c2_undo_stack_after_edits (c0 : String) (es : List String)
    (h0 : c0 ≠ "") (hes : ∀ e ∈ es.dropLast, e ≠ "") :
    (applyEdits (initEditor c0) es).undoStack = c0 :: (c0 :: es).dropLast
      ∧ (applyEdits (initEditor c0) es).undoStack.length = es.length + 1 := by
  have h := applyEdits_undoStack es (initEditor c0) rfl h0 hes
  have hinit : (initEditor c0).undoStack = [c0] := by simp [initEditor, h0]
  have hc : (initEditor c0).content = c0 := rfl
  rw [hinit, hc] at h
  refine ⟨h, ?_⟩
  rw [h]
  simp [List.length_dropLast]

/-- Claim C2 witness: two edits `"a" → "b" → "c"` yield the undo stack
`["a", "a", "b"]` of length 3. -/
theorem c2_witness :
    ("a" : String) ≠ ""
      ∧ (applyEdits (initEditor "a") ["b", "c"]).undoStack = ["a", "a", "b"]
      ∧ (applyEdits (initEditor "a") ["b", "c"]).undoStack.length = 3 :=
  ⟨by decide,
    (c2_undo_stack_after_edits "a" ["b", "c"] (by decide) (by decide)).1,
    (c2_undo_stack_after_edits "a" ["b", "c"] (by decide) (by decide)).2⟩

/-! ### Claim C5 -/

/-- Claim C5 counterexample: in the client state with content `"a"`,
empty undo stack and redo stack `["b", "a"]` (reachable by editing
`"a" → "b"` and undoing twice), invoking `undo()` then `redo()` does
not leave the undo stack depth unchanged: the no-op `undo` branch still
runs the trailing input handler, which pushes the current content and
clears the redo stack, and the then-empty redo stack makes `redo` push
once more — the undo depth ends at 2 instead of 0. -/
theorem c5_counterexample :
    (redo (undo (⟨"a", [], ["b", "a"], false⟩ : EditorState))).undoStack.length
      ≠ ((⟨"a", [], ["b", "a"], false⟩ : EditorState)).undoStack.length := by
  decide

/-- Claim C5 (amended): when the undo stack is non-empty, its top
entry is non-empty, the current content is non-empty and no undo/redo
application is pending (suppression flag clear), invoking `undo()`
then `redo()` restores the client state exactly: the content is
bit-for-bit the content before the `undo()`, and both stacks — hence
both depths — are unchanged. -/
theorem c5_undo_redo_roundtrip (s : EditorState)
    (hflag : s.isUndoRedoAction = false)
    (hne : s.undoStack ≠ [])
    (hlast : s.undoStack.getLast? ≠ some "")
    (hc : s.content ≠ "") :
    redo (undo s) = s := by
  obtain ⟨p, hp⟩ : ∃ p, s.undoStack.getLast? = some p := by
    cases h : s.undoStack.getLast? with
    | none => exact absurd (List.getLast?_eq_none_iff.mp h) hne
    | some p => exact ⟨p, rfl⟩
  have hpne : p ≠ "" := by
    intro h
    exact hlast (h ▸ hp)
  have hsplit : s.undoStack.dropLast ++ [p] = s.undoStack :=
    List.dropLast_append_getLast? p hp
  have hcb : (s.content != "") = true := bne_iff_ne.mpr hc
  have hpb : (p != "") = true := bne_iff_ne.mpr hpne
  have hundo : undo s
      = ⟨p, s.undoStack.dropLast, s.redoStack ++ [s.content], false⟩ := by
    rw [undo]
    rw [if_pos hne]
    rw [hp]
    simp only [Option.getD_some, hcb, if_true, hpb]
    simp [handleInput]
  have hredo : redo ⟨p, s.undoStack.dropLast, s.redoStack ++ [s.content], false⟩
      = ⟨s.content, s.undoStack.dropLast ++ [p], s.redoStack, false⟩ := by
    rw [redo]
    rw [if_pos (by simp : s.redoStack ++ [s.content] ≠ [])]
    simp only [List.getLast?_concat, Option.getD_some, List.dropLast_concat,
      hpb, if_true, hcb]
    simp [handleInput]
  rw [hundo, hredo, hsplit]
  cases s with
  | mk content undoStack redoStack flag =>
    simp at hflag
    rw [hflag]

/-- Claim C5 witness: from content `"c"`, undo stack `["x", "p"]` and
redo stack `["r"]`, an `undo()`/`redo()` pair is the identity. -/
theorem c5_witness :
    (⟨"c", ["x", "p"], ["r"], false⟩ : EditorState).isUndoRedoAction = false
      ∧ (⟨"c", ["x", "p"], ["r"], false⟩ : EditorState).undoStack ≠ []
      ∧ redo (undo (⟨"c", ["x", "p"], ["r"], false⟩ : EditorState))
          = (⟨"c", ["x", "p"], ["r"], false⟩ : EditorState) :=
  ⟨rfl, by decide,
    c5_undo_redo_roundtrip ⟨"c", ["x", "p"], ["r"], false⟩ rfl (by decide)
      (by decide) (by decide)⟩

/-! ### Claim C4 -/

/-- With a false prefix and a true pivot, `findIdx?` returns the
pivot's index. -/
theorem findIdx?_append_cons {α : Type _} (p : α → Bool) (pre post : List α)
    (x : α) (hpre : ∀ y ∈ pre, p y = false) (hx : p x = true) :
    (pre ++ x :: post).findIdx? p = some pre.length := by
  induction pre with
  | nil => simp [List.findIdx?_cons, hx]
  | cons y ys ih =>
    have hy : p y = false := hpre y (by simp)
    have hys : ∀ z ∈ ys, p z = false := fun z hz => hpre z (by simp [hz])
    simp [List.findIdx?_cons, hy, List.findIdx?_succ, ih hys]

/-- Claim C4 counterexample: when user 5 holds connections 1 and 2 on
document 9 and connection 2 closes, the registry removes connection
1's tuple (the first `(userId, documentId)` match) while connection
2's own tuple survives — so the tuples removed are NOT those of the
closing connection — and a second invocation of the close handler for
connection 2 removes another tuple and broadcasts `user_left` a second
time, so unregistration is not idempotent. -/
theorem c4_counterexample :
    (⟨5, 9, 2⟩ : Client) ∈ (handleClose exStateTwoTabs 2).1.clients
      ∧ (⟨5, 9, 1⟩ : Client) ∉ (handleClose exStateTwoTabs 2).1.clients
      ∧ (handleClose (handleClose exStateTwoTabs 2).1 2).2
          = [(3, ServerMsg.userLeft 5)] := by decide

/-- Claim C4 (amended): the close handler removes the FIRST registry
tuple matching the closing connection's `(userId, documentId)` pair —
not the tuple of the connection itself.  When that pair identifies the
connection uniquely (no other registered tuple shares it), the claim
holds: exactly that connection's tuple is removed, one `user_left`
carrying A's user id is broadcast to precisely the remaining open
subscribers of the document, the active-participant roster afterwards
excludes A, and a second invocation for the same connection removes
nothing and broadcasts nothing. -/
theorem c4_close_unregisters_unique (st : ServerState) (c : Nat) (ci : Client)
    (pre post : List Client)
    (hinfo : lookupInfo st c = some ci)
    (hsplit : st.clients = pre ++ (⟨ci.userId, ci.documentId, c⟩ : Client) :: post)
    (hpre : ∀ cl ∈ pre,
      (cl.userId == ci.userId && cl.documentId == ci.documentId) = false)
    (hpost : ∀ cl ∈ post,
      (cl.userId == ci.userId && cl.documentId == ci.documentId) = false) :
    (handleClose st c).1.clients = pre ++ post
      ∧ (handleClose st c).1.openConns
          = st.openConns.filter (fun x => x != c)
      ∧ (handleClose st c).2
          = broadcastToDocument (handleClose st c).1 ci.documentId
              (.userLeft ci.userId) none
      ∧ ci.userId ∉ activeUserIds (handleClose st c).1 ci.documentId
      ∧ (handleClose (handleClose st c).1 c).1.clients
          = (handleClose st c).1.clients
      ∧ (handleClose (handleClose st c).1 c).2 = [] := by
  have hinfo0 : lookupInfo
      { st with openConns := st.openConns.filter (fun x => x != c) } c
      = some ci := hinfo
  have hx : ((⟨ci.userId, ci.documentId, c⟩ : Client).userId == ci.userId
      && (⟨ci.userId, ci.documentId, c⟩ : Client).documentId == ci.documentId)
      = true := by simp
  have hfind : (pre ++ (⟨ci.userId, ci.documentId, c⟩ : Client) :: post).findIdx?
      (fun cl => cl.userId == ci.userId && cl.documentId == ci.documentId)
      = some pre.length :=
    findIdx?_append_cons _ pre post _ hpre hx
  have herase : (pre ++ (⟨ci.userId, ci.documentId, c⟩ : Client) :: post).eraseIdx
      pre.length = pre ++ post := by
    rw [List.eraseIdx_append_of_length_le (Nat.le_refl pre.length)]
    simp
  have hred : handleClose st c
      = ({ clients := pre ++ post, info := st.info,
            openConns := st.openConns.filter (fun x => x != c) },
          broadcastToDocument
            { clients := pre ++ post, info := st.info,
              openConns := st.openConns.filter (fun x => x != c) }
            ci.documentId (.userLeft ci.userId) none) := by
    rw [handleClose]
    rw [hinfo0]
    simp only [hsplit, hfind, herase]
  have hnone : (pre ++ post).findIdx?
      (fun cl => cl.userId == ci.userId && cl.documentId == ci.documentId)
      = none := by
    rw [List.findIdx?_eq_none_iff]
    intro cl hcl
    rcases List.mem_append.mp hcl with h | h
    · exact hpre cl h
    · exact hpost cl h
  have hred2 : handleClose
      { clients := pre ++ post, info := st.info,
        openConns := st.openConns.filter (fun x => x != c) } c
      = ({ clients := pre ++ post, info := st.info,
            openConns := (st.openConns.filter (fun x => x != c)).filter
              (fun x => x != c) }, []) := by
    rw [handleClose]
    have hinfo1 : lookupInfo
        { clients := pre ++ post, info := st.info,
          openConns := (st.openConns.filter (fun x => x != c)).filter
            (fun x => x != c) } c = some ci := hinfo
    rw [hinfo1]
    simp only [hnone]
  refine ⟨by rw [hred], by rw [hred], by rw [hred], ?_, by rw [hred, hred2],
    by rw [hred, hred2]⟩
  rw [hred]
  simp only [activeUserIds, List.mem_map, List.mem_filter]
  rintro ⟨cl, ⟨hcl, hdoc⟩, huid⟩
  have hfalse : (cl.userId == ci.userId && cl.documentId == ci.documentId)
      = false := by
    rcases List.mem_append.mp hcl with h | h
    · exact hpre cl h
    · exact hpost cl h
  rw [huid] at hfalse
  simp [hdoc] at hfalse

/-- Claim C4 witness: user 3 (connection 8) and user 2 (connection 7)
are each singly registered on document 9; closing connection 8 removes
exactly its tuple, sends one `user_left` (delivered to the remaining
open subscriber, connection 7), leaves user 3 off the roster, and a
repeated close is a no-op. -/
theorem c4_witness :
    (handleClose exState 8).1.clients = [⟨2, 9, 7⟩]
      ∧ (handleClose exState 8).1.openConns = [7]
      ∧ (handleClose exState 8).2
          = broadcastToDocument (handleClose exState 8).1 9 (.userLeft 3) none
      ∧ (3 : Nat) ∉ activeUserIds (handleClose exState 8).1 9
      ∧ (handleClose (handleClose exState 8).1 8).1.clients
          = (handleClose exState 8).1.clients
      ∧ (handleClose (handleClose exState 8).1 8).2 = [] := by
  have h := c4_close_unregisters_unique exState 8 ⟨3, 9, 8⟩ [⟨2, 9, 7⟩] []
    (by decide) (by decide) (by decide) (by decide)
  simpa using h

end Collab
